import Mathlib

/-!
Verification development for the Emu dataset browser-automation driver
(undetected_gpt_processor.py).  The browser layer is treated as an
abstract environment; the pieces embedded here are the pure decision logic of the
script: directory enumeration and classification, the per-worker item limit,
statistics updates, the run-level success predicate and exit code, the
prompt construction, the capture fallback logic, worker initialization
retries, and the shared work-queue claiming discipline.
-/

namespace EmuGPT

/-! ### Prompt construction (process_directory lines 256-261, run_parallel 1813-1818)

Python reads the prompt file, strips surrounding whitespace, and appends a
fixed instruction suffix.  Strings are modelled as lists of characters;
pyWhitespace covers the ASCII whitespace characters Python strip removes. -/

def pyWhitespace (c : Char) : Bool :=
  c = ' ' || c = '\t' || c = '\n' || c = '\r' || c = '\x0b' || c = '\x0c'

/-- Python str.strip with no arguments: drop whitespace from both ends. -/
def pyStrip (s : List Char) : List Char :=
  ((s.dropWhile pyWhitespace).reverse.dropWhile pyWhitespace).reverse

/-- The fixed instruction appended to every prompt before submission. -/
def keepAspectSuffix : List Char :=
  (" Keep the aspect ratio and size of the output image the same as the input image.").data

/-- The prompt actually submitted: stripped file contents plus the suffix. -/
def submittedPrompt (fileContents : List Char) : List Char :=
  pyStrip fileContents ++ keepAspectSuffix

/-- Number of non-whitespace characters of a string. -/
def countNonWS (s : List Char) : Nat :=
  (s.filter (fun c => !pyWhitespace c)).length

theorem countNonWS_dropWhile (l : List Char) :
    countNonWS (l.dropWhile pyWhitespace) = countNonWS l := by
  induction l with
  | nil => rfl
  | cons a t ih =>
      by_cases h : pyWhitespace a = true
      · simp [countNonWS, List.dropWhile, List.filter, h] at ih ⊢
        exact ih
      · simp [countNonWS, List.dropWhile, List.filter, h]

theorem countNonWS_reverse (l : List Char) :
    countNonWS l.reverse = countNonWS l := by
  simp [countNonWS, List.filter_reverse]

theorem countNonWS_append (l₁ l₂ : List Char) :
    countNonWS (l₁ ++ l₂) = countNonWS l₁ + countNonWS l₂ := by
  simp [countNonWS, List.filter_append]

theorem countNonWS_pyStrip (l : List Char) :
    countNonWS (pyStrip l) = countNonWS l := by
  unfold pyStrip
  rw [countNonWS_reverse, countNonWS_dropWhile, countNonWS_reverse,
    countNonWS_dropWhile]

/-! ### Dataset directories and enumeration

A candidate directory is abstracted by which of its files exist (and are
non-empty, for outputs).  Enumeration in run (lines 1316-1341) splits the
sorted directory list into pending and skipped; enumeration in run_parallel
(lines 1636-1663) additionally separates directories with missing inputs. -/

structure DirEntry where
  hasInputJpg : Bool
  hasPromptTxt : Bool
  outputPngNonempty : Bool
  outputTxtNonempty : Bool
  outputJpgNonempty : Bool
deriving DecidableEq

/-- A directory counts as already complete for enumeration when both
output.png and output.txt exist and are non-empty (lines 1333-1334,
1656-1657). -/
def dirComplete (d : DirEntry) : Bool :=
  d.outputPngNonempty && d.outputTxtNonempty

/-- Both required input files exist (lines 240, 1660). -/
def dirHasInputs (d : DirEntry) : Bool :=
  d.hasInputJpg && d.hasPromptTxt

/-- Single-mode enumeration, pending list: every directory that is not
already complete is kept for processing (lines 1327-1337). -/
def runPendingDirs (dirs : List DirEntry) : List DirEntry :=
  dirs.filter (fun d => !dirComplete d)

/-- Single-mode enumeration, skipped list (lines 1327-1335). -/
def runSkippedDirs (dirs : List DirEntry) : List DirEntry :=
  dirs.filter (fun d => dirComplete d)

/-- Parallel enumeration, pending list: not complete and inputs present
(lines 1648-1663, the else branch of the if and elif). -/
def parPendingDirs (dirs : List DirEntry) : List DirEntry :=
  dirs.filter (fun d => !dirComplete d && dirHasInputs d)

/-- Parallel enumeration, skipped list: outputs complete (first branch). -/
def parSkippedDirs (dirs : List DirEntry) : List DirEntry :=
  dirs.filter (fun d => dirComplete d)

/-- Parallel enumeration, missing-inputs list: not complete and some input
file absent (the elif branch). -/
def parMissingDirs (dirs : List DirEntry) : List DirEntry :=
  dirs.filter (fun d => !dirComplete d && !dirHasInputs d)

/-- Single-mode directory limit (lines 1348-1351): a positive
max_dirs_to_process caps the pending list at max_dirs in total. -/
def runLimitDirs (pending : List DirEntry) (maxDirs : Nat) : List DirEntry :=
  if 0 < maxDirs ∧ maxDirs < pending.length then pending.take maxDirs
  else pending

/-- Parallel directory limit (lines 1675-1681): a positive
max_dirs_to_process is interpreted per worker, capping the pending list at
maxDirs * numProcesses in total. -/
def parLimitDirs (pending : List DirEntry) (maxDirs numProcesses : Nat) :
    List DirEntry :=
  if 0 < maxDirs ∧ maxDirs * numProcesses < pending.length then
    pending.take (maxDirs * numProcesses)
  else pending

/-! ### Statistics (self.stats, lines 48-54, 858-868) -/

structure Stats where
  processed : Nat
  successful : Nat
  failed : Nat
  times : List ℚ
deriving DecidableEq

/-- Fresh statistics record (lines 48-54). -/
def stats0 : Stats := ⟨0, 0, 0, []⟩

/-- Statistics update of process_directory for a directory that actually
ran (lines 858-868): processed always increments, exactly one of successful
and failed increments, and the duration is appended exactly on success. -/
def runStatsUpdate (s : Stats) (success : Bool) (t : ℚ) : Stats :=
  { s with
    processed := s.processed + 1
    successful := if success then s.successful + 1 else s.successful
    failed := if success then s.failed else s.failed + 1
    times := if success then s.times ++ [t] else s.times }

/-- Whole-call model of process_directory as far as statistics and the
returned flag are concerned (lines 231-268 and 858-881): a directory with a
missing input file returns False before any statistics update; a directory
whose output.jpg or output.png is already non-empty returns True before any
statistics update; otherwise the browser interaction runs with some outcome
and the statistics update above is applied. -/
def processDirectoryModel (d : DirEntry) (outcome : Bool) (t : ℚ)
    (s : Stats) : Stats × Bool :=
  if !dirHasInputs d then (s, false)
  else if d.outputJpgNonempty || d.outputPngNonempty then (s, true)
  else (runStatsUpdate s outcome t, outcome)

/-- Folding process_directory over the pending list in order, with the
browser abstracted as a per-index outcome and duration (run, lines
1370-1389). -/
def processAllFrom (s : Stats) (i : Nat) (ds : List DirEntry)
    (outcome : Nat → Bool) (tm : Nat → ℚ) : Stats :=
  match ds with
  | [] => s
  | d :: rest =>
      processAllFrom (processDirectoryModel d (outcome i) (tm i) s).1
        (i + 1) rest outcome tm

/-! ### Single-mode run (run, lines 1301-1428) and the process exit code -/

structure RunEnv where
  datasetExists : Bool
  allDirs : List DirEntry
  maxDirs : Nat
  authOk : Bool
  outcome : Nat → Bool
  itemTime : Nat → ℚ

structure RunResult where
  ok : Bool
  stats : Stats
deriving DecidableEq

/-- Model of run: dataset-missing and empty-root return False (lines
1311-1321); an empty pending list returns True immediately (lines
1343-1345); otherwise the limit is applied, authentication is required
(lines 1363-1367), every pending directory is processed, and the run
reports success exactly when the successful counter is positive (line
1428).  The mid-run exception and periodic re-authentication paths of the
source are not modelled; the browser is abstracted into per-item
outcomes. -/
def runModel (env : RunEnv) : RunResult :=
  if env.datasetExists = false then ⟨false, stats0⟩
  else if env.allDirs = [] then ⟨false, stats0⟩
  else
    let pending := runPendingDirs env.allDirs
    if pending = [] then ⟨true, stats0⟩
    else
      let todo := runLimitDirs pending env.maxDirs
      if env.authOk = false then ⟨false, stats0⟩
      else
        let st := processAllFrom stats0 0 todo env.outcome env.itemTime
        ⟨decide (0 < st.successful), st⟩

/-- The exit code computed by main (lines 2879, 2884): 0 on a successful
run, 1 otherwise. -/
def mainExitCode (success : Bool) : Nat :=
  if success then 0 else 1

/-! ### Parallel run (run_parallel, lines 1621-2581)

Per-item accounting of the batch capture loop (lines 2058-2102): each task
increments processed and exactly one of successful and failed, and its
duration is appended to processing_times exactly on success. -/

def parItemUpdate (s : Stats) (success : Bool) (t : ℚ) : Stats :=
  { s with
    processed := s.processed + 1
    successful := if success then s.successful + 1 else s.successful
    failed := if success then s.failed else s.failed + 1
    times := if success then s.times ++ [t] else s.times }

/-- Folding the batch loop over the (limited) pending items by index. -/
def processBatchFrom (s : Stats) (i : Nat) (k : Nat)
    (capture : Nat → Bool) (tm : Nat → ℚ) : Stats :=
  match k with
  | 0 => s
  | k + 1 => processBatchFrom (parItemUpdate s (capture i) (tm i)) (i + 1) k
      capture tm

structure ParEnv where
  datasetExists : Bool
  allDirs : List DirEntry
  maxDirs : Nat
  numProcesses : Nat
  browsersInitOk : Bool
  loginConfirmed : Bool
  capture : Nat → Bool
  itemTime : Nat → ℚ

/-- Model of run_parallel: dataset-missing and empty-root return False
(lines 1631-1641); an empty pending list returns True (lines 1670-1672);
otherwise the per-worker limit applies (lines 1675-1681), browser
initialization and the manual login confirmation must succeed (lines
1730-1759), every remaining item is processed by the batch loop, and the
run reports success exactly when the successful counter is positive (line
2581). -/
def runParallelModel (env : ParEnv) : RunResult :=
  if env.datasetExists = false then ⟨false, stats0⟩
  else if env.allDirs = [] then ⟨false, stats0⟩
  else
    let pending := parPendingDirs env.allDirs
    if pending = [] then ⟨true, stats0⟩
    else
      let todo := parLimitDirs pending env.maxDirs env.numProcesses
      if env.browsersInitOk = false then ⟨false, stats0⟩
      else if env.loginConfirmed = false then ⟨false, stats0⟩
      else
        let st := processBatchFrom stats0 0 todo.length env.capture
          env.itemTime
        ⟨decide (0 < st.successful), st⟩

/-! ### Worker loop accounting (_worker_process, lines 2740-2821)

The shared counters and the result queue seen by one worker.  resultTimes
models the durations sent over result_queue (line 2788); localTimes models
the worker-local processing_times list (line 2780). -/

structure WorkerCounters where
  processed : Nat
  successful : Nat
  failed : Nat
  resultTimes : List ℚ
  localTimes : List ℚ
deriving DecidableEq

def workerCounters0 : WorkerCounters := ⟨0, 0, 0, [], []⟩

/-- Terminal outcomes of one iteration of the worker loop for a claimed
directory. -/
inductive WorkerOutcome where
  | skipExisting
  | ran (success : Bool)
  | errorRecovery
deriving DecidableEq

/-- Counter updates of one worker-loop iteration: a directory whose
output.jpg or output.png is already non-empty is skipped with processed and
successful incremented and no duration recorded (lines 2748-2764); a
directory that ran increments processed, then successful with the duration
pushed to the result queue on success, or failed otherwise (lines
2769-2793), the local list receiving the duration in both cases (line
2780); an exception during the iteration increments only failed (lines
2804-2821). -/
def workerItemUpdate (c : WorkerCounters) (o : WorkerOutcome) (t : ℚ) :
    WorkerCounters :=
  match o with
  | WorkerOutcome.skipExisting =>
      { c with processed := c.processed + 1, successful := c.successful + 1 }
  | WorkerOutcome.ran true =>
      { c with
        processed := c.processed + 1
        successful := c.successful + 1
        resultTimes := c.resultTimes ++ [t]
        localTimes := c.localTimes ++ [t] }
  | WorkerOutcome.ran false =>
      { c with
        processed := c.processed + 1
        failed := c.failed + 1
        localTimes := c.localTimes ++ [t] }
  | WorkerOutcome.errorRecovery =>
      { c with failed := c.failed + 1 }

/-! ### Capture fallback logic (find_and_save_generated_image, lines
1474-1619, and the capture section of process_directory, lines 805-852)

The page inspection is abstracted into three cases: some search strategy
located and saved the image, no strategy matched and the scan ended
normally, or an exception escaped the scan. -/

inductive CaptureSearch where
  | found
  | notFound
  | raised
deriving DecidableEq

/-- Which output artifacts of one item directory exist. -/
structure OutFiles where
  outputPng : Bool
  outputPngReal : Bool
  outputTxt : Bool
  outputFullPng : Bool
deriving DecidableEq

def noFiles : OutFiles := ⟨false, false, false, false⟩

/-- Result and file effects of find_and_save_generated_image.  A located
image is saved to output.png and True returned (for example lines
1496-1511); when nothing matches, the scan falls off the end of the try
block and the function returns None with no file written (line 1596);
when an exception escapes, the except branch writes a placeholder
output.txt if absent and a placeholder output.png, returning False (lines
1598-1619).  The Option Bool result mirrors Python: none is the implicit
None return, which is falsy. -/
def findAndSaveModel (r : CaptureSearch) (f : OutFiles) :
    Option Bool × OutFiles :=
  match r with
  | CaptureSearch.found =>
      (some true, { f with outputPng := true, outputPngReal := true })
  | CaptureSearch.notFound => (none, f)
  | CaptureSearch.raised =>
      (some false, { f with outputPng := true, outputTxt := true })

/-- Python truthiness of the capture result. -/
def captureTruthy (r : Option Bool) : Bool :=
  match r with
  | some b => b
  | none => false

/-- Capture step of process_directory in coordinate mode (lines 806-818):
a successful coordinate screenshot saves output.png, otherwise the result
of find_and_save_generated_image is used as the success flag with no
further fallback. -/
def captureCoordinates (screenshotOk : Bool) (r : CaptureSearch)
    (f : OutFiles) : Bool × OutFiles :=
  if screenshotOk then
    (true, { f with outputPng := true, outputPngReal := true })
  else
    let (res, f2) := findAndSaveModel r f
    (captureTruthy res, f2)

/-- Capture step of process_directory in selector mode (lines 819-828): if
find_and_save_generated_image did not report success, a full-page
screenshot is saved to output_full.png and success is set to True
anyway. -/
def captureSelectors (r : CaptureSearch) (f : OutFiles) : Bool × OutFiles :=
  let (res, f2) := findAndSaveModel r f
  if captureTruthy res then (true, f2)
  else (true, { f2 with outputFullPng := true })

/-- The response-text step of process_directory (lines 831-852) writes
output.txt on every branch, including its own exception handler. -/
def responseTextStep (f : OutFiles) : OutFiles :=
  { f with outputTxt := true }

/-! ### Worker browser initialization retries (_worker_process, lines
2704-2739)

max_retries is 3; after a failed attempt the worker sleeps
(2 ** attempt) * 1.0 seconds plus a uniform jitter below 0.5 (line 2732),
except after the final attempt, where the exception is re-raised and the
worker exits.  The base delay, without jitter, is modelled here. -/

def maxRetries : Nat := 3

/-- Base backoff delay in seconds before retrying attempt a + 1, from the
expression (2 ** attempt) * 1.0 at line 2732. -/
def initBackoffBase (attempt : Nat) : ℚ :=
  (2 ^ attempt) * 1

/-- The backoff schedule announced by the comment at line 2731
(1s, 3s, 9s, etc.) and by the spec.  Modelled from the spec: the comment
promises successive delays 1, 3, 9 seconds, that is 3 ** attempt. -/
def commentBackoff (attempt : Nat) : ℚ :=
  (3 ^ attempt) * 1

/-- The initialization retry loop (lines 2709-2739): fuel counts remaining
attempts, a is the current attempt index.  Returns the index of the first
successful attempt (none when all fail) together with the list of base
sleep delays performed. -/
def initAttempts (failsAt : Nat → Bool) (a : Nat) :
    Nat → Option Nat × List ℚ
  | 0 => (none, [])
  | fuel + 1 =>
      if failsAt a then
        if fuel = 0 then (none, [])
        else
          let (r, ss) := initAttempts failsAt (a + 1) fuel
          (r, initBackoffBase a :: ss)
      else (some a, [])

/-! ### Statistics persistence (save_stats, lines 103-121, and
_save_parallel_stats, lines 2583-2602) -/

/-- Summary computed by save_stats: only when the successful counter is
positive are avg_time and hourly_rate computed, avg_time dividing the sum
of processing_times by the successful counter (lines 109-114). -/
def saveStatsSummary (s : Stats) : Option (ℚ × ℚ) :=
  if 0 < s.successful then
    let avg := s.times.sum / (s.successful : ℚ)
    some (avg, if 0 < avg then 3600 / avg else 0)
  else none

/-- Guard of the average computation in _save_parallel_stats (line 2594):
the division by len(processing_times) happens only when the list is
non-empty. -/
def parallelAvgGuard (times : List ℚ) : Bool :=
  !times.isEmpty

/-- Average of _save_parallel_stats (lines 2589-2595): 0 when the guard is
false, otherwise sum divided by length. -/
def parallelAvgTime (times : List ℚ) : ℚ :=
  if parallelAvgGuard times then times.sum / (times.length : ℚ) else 0

/-! ### Shared work queue claiming (dir_queue in _worker_process, line 2746)

Each worker claims work by an atomic blocking pop from a shared
multiprocessing queue.  The interleaving of n workers is modelled as a
transition system: a worker holding nothing may atomically take the head of
the queue; a worker holding an item may finish it.  Directories are
identified by their index in the enumerated list. -/

structure QueueState (n : Nat) where
  queue : List Nat
  claimed : Fin n → Option Nat

/-- One interleaved step of the worker pool. -/
inductive QueueStep (n : Nat) : QueueState n → QueueState n → Prop where
  | claim (s : QueueState n) (w : Fin n) (d : Nat) (rest : List Nat) :
      s.claimed w = none → s.queue = d :: rest →
      QueueStep n s ⟨rest, Function.update s.claimed w (some d)⟩
  | finish (s : QueueState n) (w : Fin n) (d : Nat) :
      s.claimed w = some d →
      QueueStep n s ⟨s.queue, Function.update s.claimed w none⟩

/-- States reachable from an initial population of the queue with distinct
directories and no worker holding anything. -/
inductive QueueReach (n : Nat) : QueueState n → Prop where
  | init (q0 : List Nat) : q0.Nodup → QueueReach n ⟨q0, fun _ => none⟩
  | step (s t : QueueState n) : QueueReach n s → QueueStep n s t →
      QueueReach n t

/-- The claiming invariant: claimed items are outside the queue, no two
workers hold the same item, and the queue itself has no duplicates. -/
def QueueInv (n : Nat) (s : QueueState n) : Prop :=
  (∀ w d, s.claimed w = some d → d ∉ s.queue) ∧
  (∀ w w2, w ≠ w2 → ∀ d, s.claimed w = some d → s.claimed w2 ≠ some d) ∧
  s.queue.Nodup

theorem queueInv_of_reach (n : Nat) (s : QueueState n)
    (h : QueueReach n s) : QueueInv n s := by
  induction h with
  | init q0 hq => exact ⟨fun w d hw => by simp at hw, fun w w2 _ d hw => by
      simp at hw, hq⟩
  | step s t _ hstep ih =>
      obtain ⟨h1, h2, h3⟩ := ih
      cases hstep with
      | claim w d rest hw hq =>
          have hnodup : (d :: rest).Nodup := hq ▸ h3
          refine ⟨?_, ?_, (List.nodup_cons.mp hnodup).2⟩
          · intro w2 e he
            have he2 : Function.update s.claimed w (some d) w2 = some e := he
            rw [Function.update_apply] at he2
            show e ∉ rest
            by_cases hww : w2 = w
            · rw [if_pos hww] at he2
              have hde := Option.some.inj he2
              subst hde
              exact (List.nodup_cons.mp hnodup).1
            · rw [if_neg hww] at he2
              have hm := h1 w2 e he2
              rw [hq] at hm
              intro hr
              exact hm (List.mem_cons_of_mem d hr)
          · intro w1 w2 hne e he1 he2
            have ha : Function.update s.claimed w (some d) w1 = some e := he1
            have hb : Function.update s.claimed w (some d) w2 = some e := he2
            rw [Function.update_apply] at ha hb
            by_cases h11 : w1 = w
            · rw [if_pos h11] at ha
              have hde := Option.some.inj ha
              subst hde
              have h22 : ¬w2 = w := fun hc => hne (by rw [h11, hc])
              rw [if_neg h22] at hb
              have hm := h1 w2 d hb
              rw [hq] at hm
              exact hm (List.mem_cons_self d rest)
            · rw [if_neg h11] at ha
              by_cases h22 : w2 = w
              · rw [if_pos h22] at hb
                have hde := Option.some.inj hb
                subst hde
                have hm := h1 w1 d ha
                rw [hq] at hm
                exact hm (List.mem_cons_self d rest)
              · rw [if_neg h22] at hb
                exact h2 w1 w2 hne e ha hb
      | finish w d hw =>
          refine ⟨?_, ?_, h3⟩
          · intro w2 e he
            have he2 : Function.update s.claimed w none w2 = some e := he
            rw [Function.update_apply] at he2
            show e ∉ s.queue
            by_cases hww : w2 = w
            · rw [if_pos hww] at he2
              exact absurd he2 (by simp)
            · rw [if_neg hww] at he2
              exact h1 w2 e he2
          · intro w1 w2 hne e he1 he2
            have ha : Function.update s.claimed w none w1 = some e := he1
            have hb : Function.update s.claimed w none w2 = some e := he2
            rw [Function.update_apply] at ha hb
            by_cases h11 : w1 = w
            · rw [if_pos h11] at ha
              exact absurd ha (by simp)
            · rw [if_neg h11] at ha
              by_cases h22 : w2 = w
              · rw [if_pos h22] at hb
                exact absurd hb (by simp)
              · rw [if_neg h22] at hb
                exact h2 w1 w2 hne e ha hb

/-! ### Concrete sample environments used by witnesses and counterexamples -/

/-- A directory with both inputs and no outputs yet. -/
def eligibleDir : DirEntry := ⟨true, true, false, false, false⟩

/-- A directory whose output.png and output.txt are already non-empty. -/
def completeDir : DirEntry := ⟨true, true, true, true, false⟩

/-- A directory with no input files and no outputs. -/
def noInputDir : DirEntry := ⟨false, false, false, false, false⟩

/-- A root with three eligible and two already-complete directories. -/
def exampleRoot32 : List DirEntry :=
  [eligibleDir, eligibleDir, completeDir, eligibleDir, completeDir]

def envRun1 : RunEnv := ⟨true, [eligibleDir], 0, true, fun _ => true, fun _ => 1⟩

def envAllComplete : RunEnv :=
  ⟨true, [completeDir, completeDir], 0, true, fun _ => true, fun _ => 1⟩

def envEmptyRoot : RunEnv := ⟨true, [], 0, true, fun _ => true, fun _ => 1⟩

def penvAllComplete : ParEnv :=
  ⟨true, [completeDir, completeDir], 0, 8, true, true, fun _ => true, fun _ => 1⟩

def penvNoSuccess : ParEnv :=
  ⟨true, [eligibleDir, eligibleDir], 0, 2, true, true, fun _ => false, fun _ => 1⟩

def penvHundred : ParEnv :=
  ⟨true, List.replicate 100 eligibleDir, 2, 3, true, true, fun _ => true,
    fun _ => 1⟩

/-! ### Supporting lemmas -/

theorem mainExitCode_eq_zero (b : Bool) : mainExitCode b = 0 ↔ b = true := by
  cases b <;> simp [mainExitCode]

theorem parClassification_partition (dirs : List DirEntry) :
    (parPendingDirs dirs).length + (parSkippedDirs dirs).length +
      (parMissingDirs dirs).length = dirs.length := by
  induction dirs with
  | nil => rfl
  | cons d t ih =>
      simp only [parPendingDirs, parSkippedDirs, parMissingDirs,
        List.filter_cons] at ih ⊢
      by_cases hc : dirComplete d = true <;>
        by_cases hi : dirHasInputs d = true <;>
          simp [hc, hi] at ih ⊢ <;> omega

theorem parLimitDirs_length_le (pending : List DirEntry)
    (maxDirs numProcesses : Nat) (h : 0 < maxDirs) :
    (parLimitDirs pending maxDirs numProcesses).length ≤
      maxDirs * numProcesses := by
  unfold parLimitDirs
  by_cases hc : 0 < maxDirs ∧ maxDirs * numProcesses < pending.length
  · rw [if_pos hc]
    simp [List.length_take]
  · rw [if_neg hc]
    push_neg at hc
    exact hc h

theorem processBatchFrom_processed (k : Nat) :
    ∀ (s : Stats) (i : Nat) (cap : Nat → Bool) (tm : Nat → ℚ),
      (processBatchFrom s i k cap tm).processed = s.processed + k := by
  induction k with
  | zero => intro s i cap tm; simp [processBatchFrom]
  | succ k ih =>
      intro s i cap tm
      rw [processBatchFrom, ih]
      cases hcap : cap i <;> simp [parItemUpdate] <;> omega

theorem processBatchFrom_times_le (k : Nat) :
    ∀ (s : Stats) (i : Nat) (cap : Nat → Bool) (tm : Nat → ℚ),
      s.times.length ≤ s.successful →
      (processBatchFrom s i k cap tm).times.length ≤
        (processBatchFrom s i k cap tm).successful := by
  induction k with
  | zero => intro s i cap tm h; simpa [processBatchFrom] using h
  | succ k ih =>
      intro s i cap tm h
      rw [processBatchFrom]
      apply ih
      cases hcap : cap i <;> simp [parItemUpdate] <;> omega

theorem runParallelModel_times_le (env : ParEnv) :
    (runParallelModel env).stats.times.length ≤
      (runParallelModel env).stats.successful := by
  unfold runParallelModel
  by_cases h1 : env.datasetExists = false
  · simp [h1, stats0]
  · by_cases h2 : env.allDirs = []
    · simp [h1, h2, stats0]
    · by_cases h3 : parPendingDirs env.allDirs = []
      · simp [h1, h2, h3, stats0]
      · by_cases h4 : env.browsersInitOk = false
        · simp [h1, h2, h3, h4, stats0]
        · by_cases h5 : env.loginConfirmed = false
          · simp [h1, h2, h3, h4, h5, stats0]
          · simp only [h1, h2, h3, h4, h5, if_neg, if_false]
            simp [h1, h2, h3, h4, h5]
            exact processBatchFrom_times_le _ stats0 0 env.capture
              env.itemTime (by simp [stats0])

theorem runParallelModel_processed_le (env : ParEnv) (h : 0 < env.maxDirs) :
    (runParallelModel env).stats.processed ≤
      env.maxDirs * env.numProcesses := by
  unfold runParallelModel
  by_cases h1 : env.datasetExists = false
  · simp [h1, stats0]
  · by_cases h2 : env.allDirs = []
    · simp [h1, h2, stats0]
    · by_cases h3 : parPendingDirs env.allDirs = []
      · simp [h1, h2, h3, stats0]
      · by_cases h4 : env.browsersInitOk = false
        · simp [h1, h2, h3, h4, stats0]
        · by_cases h5 : env.loginConfirmed = false
          · simp [h1, h2, h3, h4, h5, stats0]
          · simp [h1, h2, h3, h4, h5]
            rw [processBatchFrom_processed]
            simp [stats0]
            exact parLimitDirs_length_le _ _ _ h

/-- Demonstration queue states for two workers draining a queue of two
directories. -/
def qsInit : QueueState 2 := ⟨[0, 1], fun _ => none⟩

def qsOne : QueueState 2 :=
  ⟨[1], Function.update (fun _ : Fin 2 => none) 0 (some 0)⟩

def qsTwo : QueueState 2 :=
  ⟨[], Function.update (Function.update (fun _ : Fin 2 => none) 0 (some 0)) 1
    (some 1)⟩

theorem qsTwo_reach : QueueReach 2 qsTwo := by
  have h0 : QueueReach 2 qsInit := QueueReach.init [0, 1] (by decide)
  have h1 : QueueReach 2 qsOne :=
    QueueReach.step qsInit qsOne h0 (QueueStep.claim qsInit 0 0 [1] rfl rfl)
  exact QueueReach.step qsOne qsTwo h1
    (QueueStep.claim qsOne 1 1 [] (by decide) rfl)

/-! ### Claim theorems -/

/-- C1: in every state reachable by interleaved atomic claims and
completions from an initial duplicate-free queue, two distinct workers
never hold the same directory as claimed simultaneously. -/
theorem c1_mutual_exclusion (n : Nat) (s : QueueState n)
    (h : QueueReach n s) (w1 w2 : Fin n) (hne : w1 ≠ w2) (d1 d2 : Nat)
    (h1 : s.claimed w1 = some d1) (h2 : s.claimed w2 = some d2) :
    d1 ≠ d2 := by
  have hinv := queueInv_of_reach n s h
  intro hd
  subst hd
  exact hinv.2.1 w1 w2 hne d1 h1 h2

/-- C1 witness: after two claim steps from the queue holding directories 0
and 1, the two workers hold distinct directories. -/
theorem c1_mutual_exclusion_witness :
    qsTwo.claimed 0 = some 0 ∧ qsTwo.claimed 1 = some 1 ∧
      (0 : Fin 2) ≠ 1 ∧ (0 : Nat) ≠ 1 :=
  ⟨by decide, by decide, by decide,
    c1_mutual_exclusion 2 qsTwo qsTwo_reach 0 1 (by decide) 0 1 (by decide)
      (by decide)⟩

/-- C2: in parallel mode, with a positive per-worker limit, the number of
items processed never exceeds maxDirs times numProcesses, whatever the
number of eligible directories. -/
theorem c2_per_worker_limit (env : ParEnv) (h : 0 < env.maxDirs) :
    (runParallelModel env).stats.processed ≤
      env.maxDirs * env.numProcesses :=
  runParallelModel_processed_le env h

/-- C2 witness: per-worker limit 2 with 3 workers and 100 eligible
directories processes at most 6 items (and exactly 6). -/
theorem c2_per_worker_limit_witness :
    0 < penvHundred.maxDirs ∧
      (runParallelModel penvHundred).stats.processed ≤
        penvHundred.maxDirs * penvHundred.numProcesses ∧
      (runParallelModel penvHundred).stats.processed = 6 :=
  ⟨by decide, c2_per_worker_limit penvHundred (by decide), by decide⟩

/-- C3 as stated is false: a run over a dataset whose directories are all
already complete reports success although no item was recorded as
succeeded. -/
theorem c3_counterexample :
    ¬((runModel envAllComplete).ok = true ↔
      0 < (runModel envAllComplete).stats.successful) := by
  decide

/-- C3 amended: the exit code is 0 exactly when the run reports success;
a run that reaches processing (dataset present, non-empty root, some
pending directory, authentication confirmed) reports success exactly when
at least one item succeeded, while a run whose pending set is empty
reports success outright. -/
theorem c3_run_success_criterion (env : RunEnv)
    (hd : env.datasetExists = true) (hne : env.allDirs ≠ [])
    (hauth : env.authOk = true) :
    (runPendingDirs env.allDirs = [] → runModel env = ⟨true, stats0⟩) ∧
    (runPendingDirs env.allDirs ≠ [] →
      ((runModel env).ok = true ↔ 0 < (runModel env).stats.successful)) ∧
    (mainExitCode (runModel env).ok = 0 ↔ (runModel env).ok = true) := by
  unfold runModel
  by_cases hp : runPendingDirs env.allDirs = []
  · simp [hd, hne, hp, mainExitCode_eq_zero]
  · simp [hd, hne, hp, hauth, mainExitCode_eq_zero]

/-- C3 witness: a run with one eligible directory whose processing
succeeds. -/
theorem c3_run_success_criterion_witness :
    (runPendingDirs envRun1.allDirs = [] → runModel envRun1 = ⟨true, stats0⟩) ∧
    (runPendingDirs envRun1.allDirs ≠ [] →
      ((runModel envRun1).ok = true ↔
        0 < (runModel envRun1).stats.successful)) ∧
    (mainExitCode (runModel envRun1).ok = 0 ↔
      (runModel envRun1).ok = true) :=
  c3_run_success_criterion envRun1 rfl (by decide) rfl

/-- C4 as stated is false: a worker that skips an already-complete
directory increments processed and successful but records no duration, so
the duration is not appended although the item counts as succeeded. -/
theorem c4_counterexample :
    ¬((workerItemUpdate workerCounters0 WorkerOutcome.skipExisting 1).successful
        = workerCounters0.successful + 1 →
      ((workerItemUpdate workerCounters0 WorkerOutcome.skipExisting
          1).resultTimes.length = workerCounters0.resultTimes.length + 1 ∧
        (workerItemUpdate workerCounters0 WorkerOutcome.skipExisting
          1).processed = workerCounters0.processed + 1)) := by
  decide

/-- C4 amended: for an item that actually ran, both the worker counters and
the single-mode statistics increment processed exactly once, exactly one of
successful and failed, and append the duration exactly on success; the
already-complete skip path of the worker counts the item as processed and
succeeded without recording any duration, and the exception-recovery path
increments only the failed counter. -/
theorem c4_stats_contract (c : WorkerCounters) (s : Stats) (b : Bool)
    (t : ℚ) :
    ((workerItemUpdate c (WorkerOutcome.ran b) t).processed
        = c.processed + 1 ∧
      (workerItemUpdate c (WorkerOutcome.ran b) t).successful +
        (workerItemUpdate c (WorkerOutcome.ran b) t).failed
        = c.successful + c.failed + 1 ∧
      ((workerItemUpdate c (WorkerOutcome.ran b) t).resultTimes.length
        = c.resultTimes.length + 1 ↔ b = true)) ∧
    ((workerItemUpdate c WorkerOutcome.skipExisting t).processed
        = c.processed + 1 ∧
      (workerItemUpdate c WorkerOutcome.skipExisting t).successful
        = c.successful + 1 ∧
      (workerItemUpdate c WorkerOutcome.skipExisting t).resultTimes
        = c.resultTimes ∧
      (workerItemUpdate c WorkerOutcome.skipExisting t).localTimes
        = c.localTimes) ∧
    ((workerItemUpdate c WorkerOutcome.errorRecovery t).processed
        = c.processed ∧
      (workerItemUpdate c WorkerOutcome.errorRecovery t).failed
        = c.failed + 1) ∧
    ((runStatsUpdate s b t).processed = s.processed + 1 ∧
      (runStatsUpdate s b t).successful + (runStatsUpdate s b t).failed
        = s.successful + s.failed + 1 ∧
      ((runStatsUpdate s b t).times.length = s.times.length + 1 ↔
        b = true)) := by
  cases b <;> simp [workerItemUpdate, runStatsUpdate] <;> omega

/-- C4 witness: the contract evaluated at fresh counters with a successful
run of duration 1. -/
theorem c4_stats_contract_witness :
    ((workerItemUpdate workerCounters0 (WorkerOutcome.ran true) 1).processed
        = workerCounters0.processed + 1 ∧
      (workerItemUpdate workerCounters0 (WorkerOutcome.ran true)
          1).successful +
        (workerItemUpdate workerCounters0 (WorkerOutcome.ran true) 1).failed
        = workerCounters0.successful + workerCounters0.failed + 1 ∧
      ((workerItemUpdate workerCounters0 (WorkerOutcome.ran true)
          1).resultTimes.length
        = workerCounters0.resultTimes.length + 1 ↔ true = true)) ∧
    ((workerItemUpdate workerCounters0 WorkerOutcome.skipExisting
        1).processed = workerCounters0.processed + 1 ∧
      (workerItemUpdate workerCounters0 WorkerOutcome.skipExisting
          1).successful = workerCounters0.successful + 1 ∧
      (workerItemUpdate workerCounters0 WorkerOutcome.skipExisting
          1).resultTimes = workerCounters0.resultTimes ∧
      (workerItemUpdate workerCounters0 WorkerOutcome.skipExisting
          1).localTimes = workerCounters0.localTimes) ∧
    ((workerItemUpdate workerCounters0 WorkerOutcome.errorRecovery
        1).processed = workerCounters0.processed ∧
      (workerItemUpdate workerCounters0 WorkerOutcome.errorRecovery
          1).failed = workerCounters0.failed + 1) ∧
    ((runStatsUpdate stats0 true 1).processed = stats0.processed + 1 ∧
      (runStatsUpdate stats0 true 1).successful +
        (runStatsUpdate stats0 true 1).failed
        = stats0.successful + stats0.failed + 1 ∧
      ((runStatsUpdate stats0 true 1).times.length
        = stats0.times.length + 1 ↔ true = true)) :=
  c4_stats_contract workerCounters0 stats0 true 1

/-- C5 as stated is false: the single-mode enumeration has no
missing-inputs class, so a directory with no input files and no outputs is
handed to processing as pending even though it is not eligible. -/
theorem c5_counterexample :
    ¬(∀ d ∈ runPendingDirs [noInputDir], dirHasInputs d = true) := by
  decide

/-- C5 amended: the parallel-mode enumeration classifies every candidate
directory into exactly one of pending (inputs present, outputs not
complete), skipped (outputs complete) and missing-inputs, the three class
sizes partition the root, and a root with three eligible and two complete
directories yields exactly three pending and two skipped; the single-mode
enumeration only separates complete directories, leaving missing-input
directories in the pending list. -/
theorem c5_parallel_classification (dirs : List DirEntry) (d : DirEntry)
    (hd : d ∈ dirs) :
    ((d ∈ parPendingDirs dirs ↔
        (dirComplete d = false ∧ dirHasInputs d = true)) ∧
      (d ∈ parSkippedDirs dirs ↔ dirComplete d = true) ∧
      (d ∈ parMissingDirs dirs ↔
        (dirComplete d = false ∧ dirHasInputs d = false))) ∧
    (parPendingDirs dirs).length + (parSkippedDirs dirs).length +
      (parMissingDirs dirs).length = dirs.length ∧
    (parPendingDirs exampleRoot32).length = 3 ∧
    (parSkippedDirs exampleRoot32).length = 2 ∧
    (parMissingDirs exampleRoot32).length = 0 := by
  refine ⟨⟨?_, ?_, ?_⟩, parClassification_partition dirs, by decide,
    by decide, by decide⟩
  · simp [parPendingDirs, List.mem_filter, hd]
  · simp [parSkippedDirs, List.mem_filter, hd]
  · simp [parMissingDirs, List.mem_filter, hd]

/-- C5 witness: the classification evaluated at the first eligible
directory of the sample root. -/
theorem c5_parallel_classification_witness :
    ((eligibleDir ∈ parPendingDirs exampleRoot32 ↔
        (dirComplete eligibleDir = false ∧
          dirHasInputs eligibleDir = true)) ∧
      (eligibleDir ∈ parSkippedDirs exampleRoot32 ↔
        dirComplete eligibleDir = true) ∧
      (eligibleDir ∈ parMissingDirs exampleRoot32 ↔
        (dirComplete eligibleDir = false ∧
          dirHasInputs eligibleDir = false))) ∧
    (parPendingDirs exampleRoot32).length +
      (parSkippedDirs exampleRoot32).length +
      (parMissingDirs exampleRoot32).length = exampleRoot32.length ∧
    (parPendingDirs exampleRoot32).length = 3 ∧
    (parSkippedDirs exampleRoot32).length = 2 ∧
    (parMissingDirs exampleRoot32).length = 0 :=
  c5_parallel_classification exampleRoot32 eligibleDir (by decide)

/-- C6 as stated is false: in coordinate mode, when the coordinate
screenshot fails and the image search finds nothing without raising, the
item is marked Failed but no placeholder output.png is ever written, so the
output image file does not exist afterwards. -/
theorem c6_counterexample :
    ¬((captureCoordinates false CaptureSearch.notFound noFiles).1 = true ∨
      (responseTextStep
        (captureCoordinates false CaptureSearch.notFound
          noFiles).2).outputPng = true) := by
  decide

/-- C6 amended: only an exception escaping the image search triggers the
placeholder writes, after which output.png and output.txt both exist and
the search reports failure; the selector path always reports success,
leaving either output.png or the full-page screenshot behind even when
nothing was found; the coordinate path reports failure exactly when the
coordinate screenshot fails and the search does not locate an image, and in
the nothing-found case writes no file at all; the response-text step always
writes output.txt. -/
theorem c6_capture_contract (f : OutFiles) (r : CaptureSearch) :
    ((findAndSaveModel CaptureSearch.raised f).2.outputPng = true ∧
      (findAndSaveModel CaptureSearch.raised f).2.outputTxt = true ∧
      captureTruthy (findAndSaveModel CaptureSearch.raised f).1 = false) ∧
    ((captureSelectors r f).1 = true ∧
      ((captureSelectors r f).2.outputPng = true ∨
        (captureSelectors r f).2.outputFullPng = true)) ∧
    ((captureCoordinates false r f).1 = false ↔
      (r = CaptureSearch.notFound ∨ r = CaptureSearch.raised)) ∧
    (captureCoordinates false CaptureSearch.notFound f).2 = f ∧
    (responseTextStep f).outputTxt = true := by
  cases r <;>
    simp [findAndSaveModel, captureSelectors, captureCoordinates,
      captureTruthy, responseTextStep]

/-- C6 witness: the contract evaluated at an item directory with no
pre-existing output files and a search that raised. -/
theorem c6_capture_contract_witness :
    ((findAndSaveModel CaptureSearch.raised noFiles).2.outputPng = true ∧
      (findAndSaveModel CaptureSearch.raised noFiles).2.outputTxt = true ∧
      captureTruthy (findAndSaveModel CaptureSearch.raised noFiles).1
        = false) ∧
    ((captureSelectors CaptureSearch.raised noFiles).1 = true ∧
      ((captureSelectors CaptureSearch.raised noFiles).2.outputPng = true ∨
        (captureSelectors CaptureSearch.raised noFiles).2.outputFullPng
          = true)) ∧
    ((captureCoordinates false CaptureSearch.raised noFiles).1 = false ↔
      (CaptureSearch.raised = CaptureSearch.notFound ∨
        CaptureSearch.raised = CaptureSearch.raised)) ∧
    (captureCoordinates false CaptureSearch.notFound noFiles).2 = noFiles ∧
    (responseTextStep noFiles).outputTxt = true :=
  c6_capture_contract noFiles CaptureSearch.raised

/-- C7: the worker initialization loop makes at most three attempts and a
worker whose attempts are all exhausted gives up, but the backoff delays it
actually sleeps are 1 and 2 seconds (base values of (2 ** attempt) * 1.0,
before a jitter below 0.5), not the 1, 3, 9 seconds announced by the
comment above the formula and by the spec. -/
theorem c7_backoff_evaluation :
    initAttempts (fun _ => true) 0 maxRetries = (none, [1, 2]) ∧
    commentBackoff 0 = 1 ∧ commentBackoff 1 = 3 ∧ commentBackoff 2 = 9 ∧
    initBackoffBase 1 ≠ commentBackoff 1 ∧
    initBackoffBase 2 ≠ commentBackoff 2 ∧
    initBackoffBase 1 + (1 / 2) < commentBackoff 1 ∧
    (∀ failsAt : Nat → Bool,
      ((initAttempts failsAt 0 maxRetries).2).length ≤ maxRetries - 1) := by
  refine ⟨by norm_num [initAttempts, maxRetries, initBackoffBase],
    by norm_num [commentBackoff], by norm_num [commentBackoff],
    by norm_num [commentBackoff],
    by norm_num [initBackoffBase, commentBackoff],
    by norm_num [initBackoffBase, commentBackoff],
    by norm_num [initBackoffBase, commentBackoff], ?_⟩
  intro failsAt
  by_cases h0 : failsAt 0 = true <;> by_cases h1 : failsAt 1 = true <;>
    by_cases h2 : failsAt 2 = true <;>
      simp [initAttempts, maxRetries, h0, h1, h2]

/-- C8 as stated is false at the degenerate root: a dataset root that
exists but contains no directories vacuously has all its directories
complete, yet the run reports failure, not success. -/
theorem c8_counterexample :
    ¬((∀ d ∈ envEmptyRoot.allDirs, dirComplete d = true) →
      (runModel envEmptyRoot).ok = true) := by
  decide

/-- C8 amended: for every dataset root that exists and contains at least
one directory, if every directory already has non-empty output files then
both the single-mode and the parallel run process zero items and report
success. -/
theorem c8_rerun_noop (env : RunEnv) (penv : ParEnv)
    (h1 : env.datasetExists = true) (h2 : env.allDirs ≠ [])
    (h3 : ∀ d ∈ env.allDirs, dirComplete d = true)
    (p1 : penv.datasetExists = true) (p2 : penv.allDirs ≠ [])
    (p3 : ∀ d ∈ penv.allDirs, dirComplete d = true) :
    runModel env = ⟨true, stats0⟩ ∧
      runParallelModel penv = ⟨true, stats0⟩ := by
  have hp : runPendingDirs env.allDirs = [] := by
    apply List.filter_eq_nil_iff.mpr
    intro d hd
    simp [h3 d hd]
  have hq : parPendingDirs penv.allDirs = [] := by
    apply List.filter_eq_nil_iff.mpr
    intro d hd
    simp [p3 d hd]
  constructor
  · unfold runModel
    simp [h1, h2, hp]
  · unfold runParallelModel
    simp [p1, p2, hq]

/-- C8 witness: a two-directory root where both directories are already
complete. -/
theorem c8_rerun_noop_witness :
    runModel envAllComplete = ⟨true, stats0⟩ ∧
      runParallelModel penvAllComplete = ⟨true, stats0⟩ :=
  c8_rerun_noop envAllComplete penvAllComplete rfl (by decide) (by decide)
    rfl (by decide) (by decide)

/-- C9: the average computation of save_stats is skipped entirely when the
successful counter is zero, and in the parallel model the processing-times
list is empty whenever no success was recorded, so the guarded division of
the parallel statistics is never reached with zero successes. -/
theorem c9_no_division_by_zero :
    (∀ s : Stats, s.successful = 0 → saveStatsSummary s = none) ∧
    (∀ s : Stats, saveStatsSummary s ≠ none → 0 < s.successful) ∧
    (∀ env : ParEnv, (runParallelModel env).stats.successful = 0 →
      parallelAvgGuard (runParallelModel env).stats.times = false ∧
        parallelAvgTime (runParallelModel env).stats.times = 0) := by
  refine ⟨?_, ?_, ?_⟩
  · intro s h
    simp [saveStatsSummary, h]
  · intro s h
    by_contra hc
    push_neg at hc
    have h0 : s.successful = 0 := by omega
    exact h (by simp [saveStatsSummary, h0])
  · intro env h
    have hle := runParallelModel_times_le env
    rw [h] at hle
    have hnil : (runParallelModel env).stats.times = [] :=
      List.length_eq_zero.mp (Nat.le_zero.mp hle)
    constructor
    · simp [parallelAvgGuard, hnil]
    · simp [parallelAvgTime, parallelAvgGuard, hnil]

/-- C9 witness: fresh statistics and a parallel run in which every item
fails. -/
theorem c9_no_division_by_zero_witness :
    saveStatsSummary stats0 = none ∧
      (parallelAvgGuard (runParallelModel penvNoSuccess).stats.times = false ∧
        parallelAvgTime (runParallelModel penvNoSuccess).stats.times = 0) :=
  ⟨c9_no_division_by_zero.1 stats0 rfl,
    c9_no_division_by_zero.2.2 penvNoSuccess (by decide)⟩

/-- C10: the prompt submitted for an item is exactly the prompt file
contents stripped of surrounding whitespace followed by the fixed
aspect-ratio instruction, and it is never the file contents verbatim. -/
theorem c10_submitted_prompt (c : List Char) :
    submittedPrompt c = pyStrip c ++ keepAspectSuffix ∧
      submittedPrompt c ≠ c := by
  refine ⟨rfl, ?_⟩
  intro h
  have hcount := congrArg countNonWS h
  rw [submittedPrompt, countNonWS_append, countNonWS_pyStrip] at hcount
  have hk : 0 < countNonWS keepAspectSuffix := by decide
  omega

/-- C10 witness: the submitted prompt for a two-character prompt file with
surrounding whitespace. -/
theorem c10_submitted_prompt_witness :
    submittedPrompt (String.data ("  hi  ")) =
        pyStrip (String.data ("  hi  ")) ++ keepAspectSuffix ∧
      submittedPrompt (String.data ("  hi  ")) ≠ String.data ("  hi  ") :=
  c10_submitted_prompt (String.data ("  hi  "))

end EmuGPT
